import Mathlib

/-!
Shallow embedding of the carousel session/history state manager of
`src/App.tsx` (a React single-page application), together with proofs of
the behavioural properties claimed by the specification.

Conventions of the embedding:
* JavaScript strings are Lean `String`; the JS string predicates
  (`startsWith`, `endsWith`, `toLowerCase`, `includes`) are modelled as
  list-based functions so that they compute and are easy to reason about.
* `Partial<T>` update records are modelled with an `Option` per field
  (`none` = key absent from the update object).  A field that is itself
  optional in `T` is modelled as `Option (Option _)` in the update, since
  a JS spread `{...s, ...u}` with an explicitly `undefined` value in `u`
  does overwrite the field.
* The browser `localStorage` is an external collaborator: a write either
  succeeds, fails with a quota error, or fails with some other error.  It
  is passed to the save routine as a function `store`.
* Environment-produced values (`crypto.randomUUID()`, `new Date()`,
  results of the generative-AI service calls) are passed as parameters.
-/

/-- List-based model of the JS `String.prototype.startsWith`. -/
def strStartsWith (s pre : String) : Bool := pre.toList.isPrefixOf s.toList

/-- List-based model of the JS `String.prototype.endsWith`. -/
def strEndsWith (s suf : String) : Bool := suf.toList.isSuffixOf s.toList

/-- List-based model of the JS `String.prototype.toLowerCase` (ASCII). -/
def strToLower (s : String) : String := String.mk (s.toList.map Char.toLower)

/-- Occurrence check for a pattern inside a character list, by testing
the pattern as a literal prefix at every position. -/
def subOccurs (pat : List Char) : List Char → Bool
  | [] => pat.isEmpty
  | c :: cs => pat.isPrefixOf (c :: cs) || subOccurs pat cs

/-- List-based model of the JS `String.prototype.includes`. -/
def strContainsSub (s pat : String) : Bool := subOccurs pat.toList s.toList

/-- Text stroke settings, part of a per-field typography style
(`src/App.tsx` lines 896-899 show the full shape). -/
structure TextStroke where
  color : String
  width : Rat
deriving DecidableEq, Repr

/-- Typography settings for the headline or body field of a slide. -/
structure TextStyleSettings where
  fontSize : Rat
  fontWeight : Option String
  textAlign : String
  textStroke : TextStroke
deriving DecidableEq, Repr

/-- Branding text style knobs. -/
structure BrandingStyle where
  color : String
  opacity : Rat
  position : String
  fontSize : Rat
deriving DecidableEq, Repr

/-- Slide-number badge style knobs (the source field named `show` keeps
its name via guillemets). -/
structure SlideNumberStyle where
  «show» : Bool
  color : String
  opacity : Rat
  position : String
  fontSize : Rat
deriving DecidableEq, Repr

/-- The `DesignPreferences` record: flat style configuration of a
carousel, with the fields `src/App.tsx` reads and writes
(lines 888-899 construct a full value). -/
structure DesignPreferences where
  backgroundColor : String
  fontColor : String
  backgroundOpacity : Rat
  style : String
  font : String
  aspectRatio : String
  backgroundImage : Option String
  brandingText : String
  brandingStyle : BrandingStyle
  headlineStyle : TextStyleSettings
  bodyStyle : TextStyleSettings
  slideNumberStyle : SlideNumberStyle
deriving DecidableEq, Repr

/-- One slide: text fields, a visual prompt, an optional rendered visual
(`backgroundImage`, possibly a `data:` URI), and optional per-slide style
overrides (`backgroundColor`, `fontColor`). -/
structure SlideData where
  id : String
  headline : String
  body : String
  visual_prompt : String
  backgroundImage : Option String
  backgroundColor : Option String
  fontColor : Option String
deriving DecidableEq, Repr

/-- A carousel: identity, title, creation timestamp, ordered slides, a
category and its design preferences. -/
structure Carousel where
  id : String
  title : String
  createdAt : String
  slides : List SlideData
  category : String
  preferences : DesignPreferences
deriving DecidableEq, Repr

/-! ### History sanitization and the auto-trim save routine
(`saveHistoryWithAutoTrim`, `src/App.tsx` lines 224-271) -/

/-- Sanitization of one slide before persisting: when `backgroundImage`
is present and starts with `data:video`, the field is deleted
(`src/App.tsx` lines 235-241). -/
def sanitizeSlide (slide : SlideData) : SlideData :=
  match slide.backgroundImage with
  | some img =>
    if strStartsWith img "data:video" then { slide with backgroundImage := none }
    else slide
  | none => slide

/-- Sanitization of a whole history list before persisting
(`src/App.tsx` lines 233-242): every slide of every carousel is
sanitized; nothing else is touched. -/
def sanitizeHistory (history : List Carousel) : List Carousel :=
  history.map (fun c => { c with slides := c.slides.map sanitizeSlide })

/-- Outcome of one `localStorage.setItem` attempt, as distinguished by
the catch block of `saveHistoryWithAutoTrim` (`src/App.tsx`
lines 246-267): success, a quota-shaped error, or any other error. -/
inductive StoreOutcome where
  | ok
  | quotaFail
  | otherFail
deriving DecidableEq, Repr

/-- Result of the save routine: the value actually stored, the terminal
size error surfaced to the user, or a silent non-quota write failure. -/
inductive SaveResult where
  | saved (stored : List Carousel)
  | sizeError
  | writeFailed
deriving DecidableEq, Repr

/-- The auto-trim save routine (`src/App.tsx` lines 224-271), returning
the outcome together with the number of `setItem` attempts performed.
An empty history is stored as the literal empty list with no retry; a
quota failure on a list of more than one entry retries on
`historyToSave.slice(0, -1)` (the list without its last, i.e. oldest,
entry); a quota failure on a single entry surfaces the size error; a
non-quota failure is only logged. -/
def saveHistoryWithAutoTrim (store : List Carousel → StoreOutcome) :
    List Carousel → SaveResult × Nat
  | [] =>
    match store [] with
    | .ok => (.saved [], 1)
    | _ => (.writeFailed, 1)
  | [c] =>
    match store (sanitizeHistory [c]) with
    | .ok => (.saved (sanitizeHistory [c]), 1)
    | .quotaFail => (.sizeError, 1)
    | .otherFail => (.writeFailed, 1)
  | c1 :: c2 :: rest =>
    match store (sanitizeHistory (c1 :: c2 :: rest)) with
    | .ok => (.saved (sanitizeHistory (c1 :: c2 :: rest)), 1)
    | .quotaFail =>
      let r := saveHistoryWithAutoTrim store ((c1 :: c2 :: rest).dropLast)
      (r.1, r.2 + 1)
    | .otherFail => (.writeFailed, 1)
termination_by h => h.length
decreasing_by simp [List.length_dropLast]

/-! ### Session mutators (`src/App.tsx` lines 828-955) -/

/-- A JS falsy-string fallback `a || b`: the empty string is falsy. -/
def jsOr (s dflt : String) : String := if s = "" then dflt else s

/-- A `Partial<SlideData>` update object.  An outer `none` means the key
is absent from the object; `some none` models an explicitly `undefined`
value for an optional field (as passed by `handleRemoveVisualForSlide`),
which the spread `{...s, ...updates}` does write. -/
structure SlideUpdate where
  id : Option String := none
  headline : Option String := none
  body : Option String := none
  visual_prompt : Option String := none
  backgroundImage : Option (Option String) := none
  backgroundColor : Option (Option String) := none
  fontColor : Option (Option String) := none
deriving DecidableEq, Repr

/-- The spread `{ ...s, ...updates }` for one slide. -/
def applySlideUpdate (s : SlideData) (u : SlideUpdate) : SlideData :=
  { id := u.id.getD s.id
    headline := u.headline.getD s.headline
    body := u.body.getD s.body
    visual_prompt := u.visual_prompt.getD s.visual_prompt
    backgroundImage := u.backgroundImage.getD s.backgroundImage
    backgroundColor := u.backgroundColor.getD s.backgroundColor
    fontColor := u.fontColor.getD s.fontColor }

/-- The carousel-level part of `handleUpdateSlide` (`src/App.tsx`
lines 828-846): map over the slides, applying the update to the slides
whose id matches. -/
def updateSlideInCarousel (c : Carousel) (slideId : String) (u : SlideUpdate) : Carousel :=
  { c with slides := c.slides.map (fun s => if s.id == slideId then applySlideUpdate s u else s) }

/-- The write-back snippet shared by `handleUpdateSlide`,
`handleUpdateCarouselPreferences`, `handleGenerateAllImages` and
`goToDashboard`: find the history index whose entry has the same id as
the carousel and replace that entry; when no entry matches, the history
is returned unchanged. -/
def writeBackToHistory (hist : List Carousel) (c : Carousel) : List Carousel :=
  match hist.findIdx? (fun e => e.id == c.id) with
  | some i => hist.set i c
  | none => hist

/-- State-level `handleUpdateSlide` (`src/App.tsx` lines 828-846):
the new current carousel plus the history after the write-back. -/
def handleUpdateSlideState (cur : Option Carousel) (hist : List Carousel)
    (slideId : String) (u : SlideUpdate) : Option Carousel × List Carousel :=
  match cur with
  | none => (none, hist)
  | some prev =>
    let newCarousel := updateSlideInCarousel prev slideId u
    (some newCarousel, writeBackToHistory hist newCarousel)

/-- A `Partial<DesignPreferences>` update object (`none` = key absent). -/
structure PrefsUpdate where
  backgroundColor : Option String := none
  fontColor : Option String := none
  backgroundOpacity : Option Rat := none
  style : Option String := none
  font : Option String := none
  aspectRatio : Option String := none
  backgroundImage : Option (Option String) := none
  brandingText : Option String := none
  brandingStyle : Option BrandingStyle := none
  headlineStyle : Option TextStyleSettings := none
  bodyStyle : Option TextStyleSettings := none
  slideNumberStyle : Option SlideNumberStyle := none
deriving DecidableEq, Repr

/-- The shallow spread `{ ...prev.preferences, ...updates }`
(`src/App.tsx` line 867). -/
def mergePrefs (p : DesignPreferences) (u : PrefsUpdate) : DesignPreferences :=
  { backgroundColor := u.backgroundColor.getD p.backgroundColor
    fontColor := u.fontColor.getD p.fontColor
    backgroundOpacity := u.backgroundOpacity.getD p.backgroundOpacity
    style := u.style.getD p.style
    font := u.font.getD p.font
    aspectRatio := u.aspectRatio.getD p.aspectRatio
    backgroundImage := u.backgroundImage.getD p.backgroundImage
    brandingText := u.brandingText.getD p.brandingText
    brandingStyle := u.brandingStyle.getD p.brandingStyle
    headlineStyle := u.headlineStyle.getD p.headlineStyle
    bodyStyle := u.bodyStyle.getD p.bodyStyle
    slideNumberStyle := u.slideNumberStyle.getD p.slideNumberStyle }

/-- The hard-coded placeholder preferences literal of
`handleUpdateCarouselPreferences` (`src/App.tsx` lines 885-900).  The
literal assigns every `DesignPreferences` field, so the preceding
`...defaultSettings.brandKit!` spread is fully overridden and cannot
reach the typed fields; the trailing `...updates` spread is applied by
`mergePrefs`. -/
def placeholderBasePrefs : DesignPreferences :=
  { backgroundColor := "#FFFFFF"
    fontColor := "#111827"
    backgroundOpacity := 1
    style := "Minimalist"
    font := "Inter"
    aspectRatio := "1:1"
    backgroundImage := none
    brandingText := ""
    brandingStyle := { color := "#111827", opacity := 0.75, position := "bottom-right", fontSize := 0.7 }
    headlineStyle :=
      { fontSize := 1.4, fontWeight := some "bold", textAlign := "center"
        textStroke := { color := "#000000", width := 0 } }
    bodyStyle :=
      { fontSize := 0.8, fontWeight := none, textAlign := "center"
        textStroke := { color := "#000000", width := 0 } }
    slideNumberStyle :=
      { «show» := false, color := "#FFFFFF", opacity := 0.8, position := "top-right", fontSize := 0.7 } }

/-- State-level `handleUpdateCarouselPreferences` (`src/App.tsx`
lines 864-905).  With a current carousel, its preferences receive the
partial update and the result is written back to history; without one,
a transient placeholder carousel is created (`temp-` id, empty slides)
and history is untouched. -/
def handleUpdatePrefsState (cur : Option Carousel) (hist : List Carousel)
    (u : PrefsUpdate) (topicValue : String) (userNiche : List String)
    (freshId nowIso : String) : Option Carousel × List Carousel :=
  match cur with
  | some prev =>
    let newCarousel := { prev with preferences := mergePrefs prev.preferences u }
    (some newCarousel, writeBackToHistory hist newCarousel)
  | none =>
    (some { id := "temp-" ++ freshId
            title := topicValue
            createdAt := nowIso
            slides := []
            category := jsOr (userNiche.headD "") "General"
            preferences := mergePrefs placeholderBasePrefs u }, hist)

/-- Override fields that `handleClearSlideOverrides` can delete (the
optional keys of `SlideData`; TS `delete` is only allowed on them). -/
inductive SlideOverrideField where
  | backgroundImage
  | backgroundColor
  | fontColor
deriving DecidableEq, Repr

/-- The statement `delete newSlide[property]` for one slide. -/
def deleteSlideField (s : SlideData) : SlideOverrideField → SlideData
  | .backgroundImage => { s with backgroundImage := none }
  | .backgroundColor => { s with backgroundColor := none }
  | .fontColor => { s with fontColor := none }

/-- State-level `handleClearSlideOverrides` (`src/App.tsx`
lines 907-917): the named override field is deleted on every slide of
the current carousel; the history list is not touched by this mutator. -/
def handleClearSlideOverridesState (cur : Option Carousel) (hist : List Carousel)
    (property : SlideOverrideField) : Option Carousel × List Carousel :=
  match cur with
  | none => (none, hist)
  | some prev =>
    (some { prev with slides := prev.slides.map (fun s => deleteSlideField s property) }, hist)

/-- Direction argument of `handleMoveSlide`. -/
inductive MoveDir where
  | left
  | right
deriving DecidableEq, Repr

/-- The carousel-level part of `handleMoveSlide` (`src/App.tsx`
lines 944-955): locate the slide by id, compute the adjacent target
index, bail out when the id is unknown or the target is out of bounds,
otherwise swap the two positions. -/
def moveSlide (c : Carousel) (slideId : String) (direction : MoveDir) : Carousel :=
  match c.slides.findIdx? (fun s => s.id == slideId) with
  | none => c
  | some index =>
    let newIndex : Int := if direction = .left then (index : Int) - 1 else (index : Int) + 1
    if newIndex < 0 ∨ (c.slides.length : Int) ≤ newIndex then c
    else
      match c.slides[index]?, c.slides[newIndex.toNat]? with
      | some a, some b => { c with slides := (c.slides.set index b).set newIndex.toNat a }
      | _, _ => c

/-- State-level `handleMoveSlide` (`src/App.tsx` lines 944-955): only
`setCurrentCarousel` is called; the history list is not touched. -/
def handleMoveSlideState (cur : Option Carousel) (hist : List Carousel)
    (slideId : String) (direction : MoveDir) : Option Carousel × List Carousel :=
  match cur with
  | none => (none, hist)
  | some prev => (some (moveSlide prev slideId direction), hist)

/-- The view states of the application router. -/
inductive AppView where
  | LOGIN
  | PROFILE_SETUP
  | DASHBOARD
  | GENERATOR
  | SETTINGS
  | TUTORIAL
deriving DecidableEq, Repr

/-- Navigation to the dashboard (`goToDashboard`, `src/App.tsx`
lines 439-455): a no-op from `LOGIN` or `PROFILE_SETUP`; otherwise the
current carousel, when present and already in history, is written back
into its entry, the current carousel is cleared and the view becomes
`DASHBOARD`. -/
def goToDashboard (view : AppView) (cur : Option Carousel) (hist : List Carousel) :
    AppView × Option Carousel × List Carousel :=
  if view = .LOGIN ∨ view = .PROFILE_SETUP then (view, cur, hist)
  else
    match cur with
    | some c => (.DASHBOARD, none, writeBackToHistory hist c)
    | none => (.DASHBOARD, none, hist)

/-! ### The error classifier (`parseAndDisplayError`, `src/App.tsx`
lines 274-320) and its JSON model -/

/-- A JSON value as produced by `JSON.parse`.  Numbers are modelled as
integers: every numeric field the classifier inspects (`code`) is an
integer HTTP status code. -/
inductive JsonValue where
  | null
  | bool (b : Bool)
  | num (n : Int)
  | str (s : String)
  | arr (items : List JsonValue)
  | obj (fields : List (String × JsonValue))

/-- Whitespace skipping for the JSON reader. -/
def skipWs : List Char → List Char
  | [] => []
  | c :: cs =>
    if [' ', '\t', '\n', '\r'].contains c then skipWs cs
    else c :: cs

/-- Single-character JSON string escapes (the `\uXXXX` form is not
modelled; no input the application classifies contains one). -/
def escChar (c : Char) : Option Char :=
  if c = 'n' then some '\n'
  else if c = 't' then some '\t'
  else if c = 'r' then some '\r'
  else if c = 'b' then some (Char.ofNat 8)
  else if c = 'f' then some (Char.ofNat 12)
  else if c = '"' ∨ c = '\\' ∨ c = '/' then some c
  else none

/-- Reader for the body of a JSON string literal, after the opening
quote; returns the decoded string and the rest of the input. -/
def parseJsonStringAux (acc : List Char) : List Char → Option (String × List Char)
  | [] => none
  | c :: rest =>
    if c = '"' then some (String.mk acc.reverse, rest)
    else if c = '\\' then
      match rest with
      | [] => none
      | e :: rest2 =>
        match escChar e with
        | some decoded => parseJsonStringAux (decoded :: acc) rest2
        | none => none
    else parseJsonStringAux (c :: acc) rest

/-- Digit run at the front of the input. -/
def takeDigits (l : List Char) : List Char × List Char := l.span Char.isDigit

/-- Decimal value of a digit run. -/
def digitsToNat (ds : List Char) : Nat :=
  ds.foldl (fun acc d => 10 * acc + (d.toNat - 48)) 0

mutual

/-- Recursive-descent reader for one JSON value (model of `JSON.parse`;
fractional and exponent number forms are not modelled, see `JsonValue`). -/
def parseJsonValue : Nat → List Char → Option (JsonValue × List Char)
  | 0, _ => none
  | Nat.succ fuel, input =>
    match skipWs input with
    | [] => none
    | c :: rest =>
      if c = '"' then
        match parseJsonStringAux [] rest with
        | some (s, r) => some (.str s, r)
        | none => none
      else if c = '\x7b' then
        match skipWs rest with
        | '\x7d' :: r => some (.obj [], r)
        | other => parseObjFields fuel other []
      else if c = '[' then
        match skipWs rest with
        | ']' :: r => some (.arr [], r)
        | other => parseArrElems fuel other []
      else if c = 't' then
        if ['r', 'u', 'e'].isPrefixOf rest then some (.bool true, rest.drop 3) else none
      else if c = 'f' then
        if ['a', 'l', 's', 'e'].isPrefixOf rest then some (.bool false, rest.drop 4) else none
      else if c = 'n' then
        if ['u', 'l', 'l'].isPrefixOf rest then some (.null, rest.drop 3) else none
      else if c = '-' then
        match takeDigits rest with
        | ([], _) => none
        | (ds, r) => some (.num (-(digitsToNat ds : Int)), r)
      else if c.isDigit then
        match takeDigits (c :: rest) with
        | (ds, r) => some (.num (digitsToNat ds : Int), r)
      else none
termination_by structural fuel => fuel

/-- Reader for the members of a nonempty JSON object, after the opening
brace. -/
def parseObjFields : Nat → List Char → List (String × JsonValue) →
    Option (JsonValue × List Char)
  | 0, _, _ => none
  | Nat.succ fuel, input, acc =>
    match skipWs input with
    | '"' :: rest =>
      match parseJsonStringAux [] rest with
      | none => none
      | some (key, r1) =>
        match skipWs r1 with
        | ':' :: r2 =>
          match parseJsonValue fuel r2 with
          | none => none
          | some (v, r3) =>
            match skipWs r3 with
            | ',' :: r4 => parseObjFields fuel r4 ((key, v) :: acc)
            | '\x7d' :: r4 => some (.obj ((key, v) :: acc).reverse, r4)
            | _ => none
        | _ => none
    | _ => none
termination_by structural fuel _ _ => fuel

/-- Reader for the elements of a nonempty JSON array, after the opening
bracket. -/
def parseArrElems : Nat → List Char → List JsonValue → Option (JsonValue × List Char)
  | 0, _, _ => none
  | Nat.succ fuel, input, acc =>
    match parseJsonValue fuel input with
    | none => none
    | some (v, r1) =>
      match skipWs r1 with
      | ',' :: r2 => parseArrElems fuel r2 (v :: acc)
      | ']' :: r2 => some (.arr (v :: acc).reverse, r2)
      | _ => none
termination_by structural fuel _ _ => fuel

end

/-- Model of `JSON.parse` on a whole string: one value followed by
nothing but whitespace. -/
def jsonParse (s : String) : Option JsonValue :=
  match parseJsonValue (s.length + 1) s.toList with
  | some (v, rest) => if (skipWs rest).isEmpty then some v else none
  | none => none

/-- JS property lookup on a parsed value: defined on objects only. -/
def objGet (v : JsonValue) (key : String) : Option JsonValue :=
  match v with
  | .obj fields => (fields.find? (fun kv => kv.1 == key)).map (fun kv => kv.2)
  | _ => none

/-- String-valued property lookup; a non-string value is treated as
absent (the classifier only compares such fields against strings). -/
def objGetStr (v : JsonValue) (key : String) : Option String :=
  match objGet v key with
  | some (.str s) => some s
  | _ => none

/-- Number-valued property lookup; a non-numeric value is treated as
absent (a strict `===` against a number is false for it). -/
def objGetNum (v : JsonValue) (key : String) : Option Int :=
  match objGet v key with
  | some (.num n) => some n
  | _ => none

/-- Array-valued property lookup. -/
def objGetArr (v : JsonValue) (key : String) : Option (List JsonValue) :=
  match objGet v key with
  | some (.arr items) => some items
  | _ => none

/-- JS truthiness of a parsed JSON value. -/
def jsTruthy : JsonValue → Bool
  | .null => false
  | .bool b => b
  | .num n => n != 0
  | .str s => s != ""
  | .arr _ => true
  | .obj _ => true

/-- The help-link extraction
`details?.find(d => d['@type'] === '...google.rpc.Help')?.links?.[0]?.url`
(`src/App.tsx` lines 285-286). -/
def findHelpLink (details : Option (List JsonValue)) : Option String :=
  match details with
  | none => none
  | some items =>
    match items.find? (fun d => objGetStr d "@type" == some "type.googleapis.com/google.rpc.Help") with
    | none => none
    | some d =>
      match objGet d "links" with
      | some (.arr (l0 :: _)) => objGetStr l0 "url"
      | _ => none

/-- Modelled from the spec: the translation table `lib/translations` is
not among the provided sources.  The user-facing messages for the keys
the classifier uses are fixed distinct strings; an unknown key falls
back to the key itself, as the lookup `t` does (`src/App.tsx`
lines 142-151). -/
def translationsLookup (key : String) : String :=
  if key = "errorQuotaExceeded" then
    "API quota exceeded. See \x7b\x7blink\x7d\x7d for rate limits."
  else if key = "errorInvalidApiKey" then
    "Your API key is not valid. Please check it in Settings."
  else if key = "errorApiKeyNotConfigured" then
    "API key is not configured. Please add it in Settings."
  else if key = "errorImageGen" then
    "The AI did not return an image. Please try a different prompt."
  else if key = "errorUnknown" then
    "An unknown error occurred."
  else key

/-- Fuelled worker for `replaceAllList`; each step consumes at least one
character, so a fuel equal to the input length never runs out. -/
def replaceAllAux (pat rep : List Char) : Nat → List Char → List Char
  | 0, l => l
  | Nat.succ _, [] => []
  | Nat.succ fuel, c :: cs =>
    if pat.isPrefixOf (c :: cs) && !pat.isEmpty then
      rep ++ replaceAllAux pat rep fuel ((c :: cs).drop pat.length)
    else
      c :: replaceAllAux pat rep fuel cs

/-- Replacement of every occurrence of a pattern in a character list
(model of the global regex replace in `t`). -/
def replaceAllList (pat rep l : List Char) : List Char :=
  replaceAllAux pat rep l.length l

/-- The translation function `t` (`src/App.tsx` lines 142-151): look the
key up and substitute each named parameter for its `\x7b\x7bname\x7d\x7d`
placeholder. -/
def tFormat (key : String) (params : List (String × String)) : String :=
  params.foldl
    (fun text kv =>
      String.mk (replaceAllList ("\x7b\x7b" ++ kv.1 ++ "\x7d\x7d").toList kv.2.toList text.toList))
    (translationsLookup key)

/-- The error classifier `parseAndDisplayError` (`src/App.tsx`
lines 274-320), as a function of the error message string.  A message
that looks like a JSON object is parsed: a truthy `error` member with
`code === 429` or `status === "RESOURCE_EXHAUSTED"` yields the
quota-exceeded message (with the help link of the error details, or the
default rate-limit link); `code === 400` with an `api key not valid` or
`permission denied` substring in the lowercased member message yields
the invalid-credential message; any other truthy `error` member yields
its `message` or the raw message.  Otherwise the classifier checks the
same substrings on the lowercased raw message, then the
`api key is not configured` substring, then the literal image-failure
sentence, and finally falls back to the raw message. -/
def parseAndDisplayError (message : String) : String :=
  let errorMessage := jsOr message (tFormat "errorUnknown" [])
  let structured : Option String :=
    if strStartsWith errorMessage "\x7b" && strEndsWith errorMessage "\x7d" then
      match jsonParse errorMessage with
      | none => none
      | some errorObj =>
        match objGet errorObj "error" with
        | some errVal =>
          if jsTruthy errVal then
            let code := objGetNum errVal "code"
            let msgField := objGetStr errVal "message"
            let status := objGetStr errVal "status"
            if code == some 429 || status == some "RESOURCE_EXHAUSTED" then
              let helpLink := findHelpLink (objGetArr errVal "details")
              some (tFormat "errorQuotaExceeded"
                [("link", jsOr (helpLink.getD "") "https://ai.google.dev/gemini-api/docs/rate-limits")])
            else
              let lowerMessage := strToLower (msgField.getD "")
              if code == some 400 &&
                  (strContainsSub lowerMessage "api key not valid" ||
                   strContainsSub lowerMessage "permission denied") then
                some (tFormat "errorInvalidApiKey" [])
              else
                some (jsOr (msgField.getD "") errorMessage)
          else none
        | none => none
    else none
  match structured with
  | some r => r
  | none =>
    let lowerCaseMessage := strToLower errorMessage
    if strContainsSub lowerCaseMessage "api key not valid" ||
        strContainsSub lowerCaseMessage "permission denied" then
      tFormat "errorInvalidApiKey" []
    else if strContainsSub lowerCaseMessage "api key is not configured" then
      tFormat "errorApiKeyNotConfigured" []
    else if strContainsSub errorMessage "AI did not return an image from your prompt." then
      tFormat "errorImageGen" []
    else errorMessage

/-! ### Generation orchestrator (`handleGenerateCarousel`,
`src/App.tsx` lines 485-556) -/

/-- One slide worth of generated content.  Modelled from the spec: the
external service `generateCarouselContent` is not among the provided
sources; the spec says a successful call returns the slide text fields
(headline, body, visual prompt) for at least one slide. -/
structure SlideContent where
  headline : String
  body : String
  visual_prompt : String
deriving DecidableEq, Repr

/-- The per-slide image pass `executeImageGenerationForAllSlides`
(`src/App.tsx` lines 485-505): iterate over the slides in order; when
the image call for slide `i` succeeds with a URL, set it as that slide
id's `backgroundImage`; when it fails, log and continue.  The outcome
of each external `generateImage` call is the parameter `images`. -/
def executeImageGenerationForAllSlides (c : Carousel) (images : Nat → Option String) : Carousel :=
  c.slides.enum.foldl
    (fun acc p =>
      match images p.1 with
      | some url =>
        { acc with
          slides := acc.slides.map
            (fun s => if s.id == p.2.id then { s with backgroundImage := some url } else s) }
      | none => acc)
    c

/-- The success path of `handleGenerateCarousel` (`src/App.tsx`
lines 508-556) after `generateCarouselContent` returned `content`: the
fresh slide ids (`crypto.randomUUID()` per slide), the fresh carousel
id and the timestamp come in as parameters; the new carousel is built,
optionally runs the magic-create image pass, and is prepended to the
history.  Returns the final current carousel and the new history. -/
def handleGenerateCarousel (topic niche : String) (userNiche : List String)
    (preferences : DesignPreferences) (magicCreate : Bool)
    (content : List SlideContent) (slideIds : List String) (newId nowIso : String)
    (images : Nat → Option String) (hist : List Carousel) : Carousel × List Carousel :=
  let nicheToUse := jsOr niche (if 0 < userNiche.length then userNiche.headD "" else "General")
  let initialSlides : List SlideData :=
    (content.zip slideIds).map
      (fun p =>
        { id := p.2, headline := p.1.headline, body := p.1.body
          visual_prompt := p.1.visual_prompt
          backgroundImage := none, backgroundColor := none, fontColor := none })
  let newCarousel : Carousel :=
    { id := newId, title := topic, createdAt := nowIso
      slides := initialSlides, category := nicheToUse, preferences := preferences }
  if magicCreate then
    let finalCarousel := executeImageGenerationForAllSlides newCarousel images
    (finalCarousel, finalCarousel :: hist)
  else
    (newCarousel, newCarousel :: hist)

/-! ### Concrete fixtures used by witnesses and counterexamples -/

/-- A plain slide with no visual. -/
def slideA : SlideData :=
  { id := "s1", headline := "Hook", body := "Body one", visual_prompt := "p1"
    backgroundImage := none, backgroundColor := none, fontColor := none }

/-- A slide carrying an inline image visual. -/
def slideB : SlideData :=
  { id := "s2", headline := "Point", body := "Body two", visual_prompt := "p2"
    backgroundImage := some "data:image/png;base64,AAA"
    backgroundColor := none, fontColor := none }

/-- A slide carrying an inline video visual. -/
def slideV : SlideData :=
  { id := "s3", headline := "Clip", body := "Body three", visual_prompt := "p3"
    backgroundImage := some "data:video/mp4;base64,AAAA"
    backgroundColor := none, fontColor := none }

/-- A two-slide carousel. -/
def carouselA : Carousel :=
  { id := "c1", title := "Coffee Brewing", createdAt := "2024-01-01T00:00:00Z"
    slides := [slideA, slideB], category := "Food", preferences := placeholderBasePrefs }

/-- A second carousel with a distinct id. -/
def carouselB : Carousel :=
  { carouselA with id := "c2", title := "Tea", slides := [slideA] }

/-- A carousel holding a video slide. -/
def carouselV : Carousel :=
  { carouselA with id := "c3", title := "Reel", slides := [slideV, slideB] }

/-! ### Helper lemmas -/

/-- A successful `findIdx?` yields an in-range index whose element
satisfies the predicate. -/
theorem findIdx?_spec {α : Type _} {p : α → Bool} {l : List α} {i : Nat}
    (h : l.findIdx? p = some i) :
    i < l.length ∧ ∃ a, l[i]? = some a ∧ p a = true := by
  obtain ⟨hlt, hidx⟩ := List.findIdx?_eq_some_iff_findIdx_eq.mp h
  refine ⟨hlt, l[i], ?_, ?_⟩
  · exact List.getElem?_eq_getElem hlt
  · subst hidx
    exact @List.findIdx_getElem _ p l hlt

/-! ### C1 and C10: the auto-trim save loop -/

/-- C1: when the store rejects the sanitized history for size (a quota
failure), the save routine with more than one entry retries on the list
with exactly its last element (the oldest entry of the newest-first
list) dropped, spending one extra attempt; with exactly one entry it
surfaces the terminal size error and performs no further drop. -/
theorem saveHistory_quota_drops_oldest
    (store : List Carousel → StoreOutcome) (h : List Carousel)
    (hq : store (sanitizeHistory h) = .quotaFail) :
    (1 < h.length →
      saveHistoryWithAutoTrim store h
        = ((saveHistoryWithAutoTrim store h.dropLast).1,
           (saveHistoryWithAutoTrim store h.dropLast).2 + 1)) ∧
    (h.length = 1 → (saveHistoryWithAutoTrim store h).1 = SaveResult.sizeError) := by
  match h with
  | [] =>
    exact ⟨by intro hh; simp at hh, by intro hh; simp at hh⟩
  | [c] =>
    refine ⟨by intro hh; simp at hh, fun _ => ?_⟩
    simp [saveHistoryWithAutoTrim, hq]
  | c1 :: c2 :: rest =>
    refine ⟨fun _ => ?_, by intro hh; simp at hh⟩
    simp [saveHistoryWithAutoTrim, hq]

/-- A store that rejects any list of more than one carousel for size. -/
def store2 : List Carousel → StoreOutcome := fun l => if 1 < l.length then .quotaFail else .ok

/-- Witness for `saveHistory_quota_drops_oldest` on a concrete
two-entry history and quota-bound store. -/
theorem saveHistory_quota_drops_oldest_witness :
    store2 (sanitizeHistory [carouselA, carouselB]) = .quotaFail ∧
    ((1 < ([carouselA, carouselB] : List Carousel).length →
      saveHistoryWithAutoTrim store2 [carouselA, carouselB]
        = ((saveHistoryWithAutoTrim store2 ([carouselA, carouselB] : List Carousel).dropLast).1,
           (saveHistoryWithAutoTrim store2 ([carouselA, carouselB] : List Carousel).dropLast).2 + 1)) ∧
     (([carouselA, carouselB] : List Carousel).length = 1 →
      (saveHistoryWithAutoTrim store2 [carouselA, carouselB]).1 = SaveResult.sizeError)) :=
  ⟨by decide, saveHistory_quota_drops_oldest store2 [carouselA, carouselB] (by decide)⟩

/-- C10: the auto-trim save routine terminates (it is a total function
of this embedding) and performs at most one storage attempt per history
entry: for a nonempty history of `n` entries there are at most `n`
`setItem` attempts before it succeeds or reports the terminal error. -/
theorem saveHistory_attempts_le (store : List Carousel → StoreOutcome) (h : List Carousel)
    (hne : 0 < h.length) :
    (saveHistoryWithAutoTrim store h).2 ≤ h.length := by
  suffices H : ∀ n (l : List Carousel), l.length ≤ n → 0 < l.length →
      (saveHistoryWithAutoTrim store l).2 ≤ l.length from H h.length h le_rfl hne
  intro n
  induction n with
  | zero => intro l hle hpos; omega
  | succ n ih =>
    intro l hle hpos
    match l with
    | [c] =>
      cases hs : store (sanitizeHistory [c]) <;> simp [saveHistoryWithAutoTrim, hs]
    | c1 :: c2 :: rest =>
      cases hs : store (sanitizeHistory (c1 :: c2 :: rest)) with
      | ok => simp [saveHistoryWithAutoTrim, hs]
      | quotaFail =>
        have hrec := ih ((c1 :: c2 :: rest).dropLast) (by simp at hle ⊢; omega) (by simp)
        simp only [saveHistoryWithAutoTrim, hs]
        simp at hrec ⊢
        omega
      | otherFail => simp [saveHistoryWithAutoTrim, hs]

/-- A store that always reports a quota failure. -/
def storeAlwaysQuota : List Carousel → StoreOutcome := fun _ => .quotaFail

/-- Witness for `saveHistory_attempts_le` on a concrete one-entry
history against an always-failing store. -/
theorem saveHistory_attempts_le_witness :
    0 < ([carouselA] : List Carousel).length ∧
    (saveHistoryWithAutoTrim storeAlwaysQuota [carouselA]).2 ≤ ([carouselA] : List Carousel).length :=
  ⟨by decide, saveHistory_attempts_le storeAlwaysQuota [carouselA] (by decide)⟩

/-! ### C2: inline video data in the persisted snapshot -/

/-- Check whether any visual-payload field of the snapshot (a slide
`backgroundImage` or a preferences `backgroundImage`) holds an inline
video data URI. -/
def snapshotHasInlineVideo (h : List Carousel) : Bool :=
  h.any (fun c =>
    strStartsWith (c.preferences.backgroundImage.getD "") "data:video" ||
    c.slides.any (fun s => strStartsWith (s.backgroundImage.getD "") "data:video"))

/-- A preferences update that sets the carousel-level background to an
inline video data URI (an arbitrary `Partial<DesignPreferences>` a
caller can pass to `handleUpdateCarouselPreferences`). -/
def prefsVideoUpdate : PrefsUpdate := { backgroundImage := some (some "data:video/mp4;base64,AAAA") }

/-- C2 counterexample: one preferences mutation puts an inline video
data URI into `preferences.backgroundImage` of a history entry, and the
sanitization pass (which only strips slide-level `backgroundImage`
fields) persists it: the sanitized snapshot still holds inline video
data, so the claim that no persisted field anywhere holds inline video
data is false. -/
theorem persisted_video_counterexample :
    snapshotHasInlineVideo
      (sanitizeHistory
        ((handleUpdatePrefsState (some carouselA) [carouselA] prefsVideoUpdate
            "Coffee Brewing" ["Food"] "u1" "t1").2)) = true := by decide

/-- C2 as amended: in the persisted (sanitized) snapshot, no slide
`backgroundImage` field holds an inline video data URI — every slide
whose visual starts with `data:video` has that field removed before
serialization.  (Non-slide fields, for example
`preferences.backgroundImage`, are not sanitized; see the
counterexample.) -/
theorem sanitized_slides_no_inline_video
    (h : List Carousel) (c : Carousel) (s : SlideData) (v : String)
    (hc : c ∈ sanitizeHistory h) (hs : s ∈ c.slides)
    (hv : s.backgroundImage = some v) :
    strStartsWith v "data:video" = false := by
  obtain ⟨c0, -, rfl⟩ := List.mem_map.mp hc
  obtain ⟨s0, -, rfl⟩ := List.mem_map.mp hs
  by_cases hsw : strStartsWith ((s0.backgroundImage).getD "") "data:video" = true
  · cases h0 : s0.backgroundImage with
    | none => simp [sanitizeSlide, h0] at hv
    | some img =>
      rw [h0] at hsw
      simp at hsw
      simp [sanitizeSlide, h0, hsw] at hv
  · cases h0 : s0.backgroundImage with
    | none => simp [sanitizeSlide, h0] at hv
    | some img =>
      rw [h0] at hsw
      simp at hsw
      simp [sanitizeSlide, h0, hsw] at hv
      subst hv
      simpa using hsw

/-- The sanitized form of `carouselV`. -/
def sanitizedCV : Carousel := { carouselV with slides := carouselV.slides.map sanitizeSlide }

/-- Witness for `sanitized_slides_no_inline_video` on the sanitized
image slide of a concrete history. -/
theorem sanitized_slides_no_inline_video_witness :
    (sanitizedCV ∈ sanitizeHistory [carouselV]) ∧
    (sanitizeSlide slideB ∈ sanitizedCV.slides) ∧
    ((sanitizeSlide slideB).backgroundImage = some "data:image/png;base64,AAA") ∧
    strStartsWith "data:image/png;base64,AAA" "data:video" = false :=
  ⟨by simp [sanitizeHistory, sanitizedCV], by simp [sanitizedCV, carouselV, carouselA], by decide,
   sanitized_slides_no_inline_video [carouselV] sanitizedCV (sanitizeSlide slideB)
     "data:image/png;base64,AAA" (by simp [sanitizeHistory, sanitizedCV])
     (by simp [sanitizedCV, carouselV, carouselA]) (by decide)⟩

/-! ### C3: write-back of mutated carousels into history -/

/-- C3 counterexample: the reorder mutator `handleMoveSlide` does not
write the mutated carousel back into history.  Starting from a current
carousel that has a matching history entry, moving slide `s1` right
leaves the history entry untouched (still `[slideA, slideB]`) while the
current carousel now carries `[slideB, slideA]`, so the current value
and its history entry differ after the mutation. -/
theorem mutator_history_sync_counterexample :
    (handleMoveSlideState (some carouselA) [carouselA] "s1" MoveDir.right).2 = [carouselA] ∧
    ((handleMoveSlideState (some carouselA) [carouselA] "s1" MoveDir.right).1).map Carousel.slides
      = some [slideB, slideA] ∧
    carouselA.slides = [slideA, slideB] ∧
    slideA ≠ slideB := by
  refine ⟨rfl, ?_, by decide, by decide⟩
  decide

/-- C3 as amended: only the slide-update and preferences-update
mutators write the mutated carousel back into the matching history
entry by id; the reorder and clear-overrides mutators leave the history
list unchanged (the pair only re-synchronizes later, for example when
navigation flushes the current carousel). -/
theorem update_mutators_sync_history
    (prev : Carousel) (hist : List Carousel) (i : Nat)
    (sid : String) (u : SlideUpdate) (uP : PrefsUpdate)
    (topic : String) (un : List String) (fid now : String)
    (dir : MoveDir) (p : SlideOverrideField)
    (hfind : hist.findIdx? (fun e => e.id == prev.id) = some i) :
    ((handleUpdateSlideState (some prev) hist sid u).2)[i]?
        = some (updateSlideInCarousel prev sid u) ∧
    ((handleUpdatePrefsState (some prev) hist uP topic un fid now).2)[i]?
        = some { prev with preferences := mergePrefs prev.preferences uP } ∧
    (handleMoveSlideState (some prev) hist sid dir).2 = hist ∧
    (handleClearSlideOverridesState (some prev) hist p).2 = hist := by
  have hlt := (findIdx?_spec hfind).1
  refine ⟨?_, ?_, rfl, rfl⟩
  · show (writeBackToHistory hist (updateSlideInCarousel prev sid u))[i]? = _
    unfold writeBackToHistory
    have hid : (updateSlideInCarousel prev sid u).id = prev.id := rfl
    rw [hid, hfind]
    exact List.getElem?_set_self hlt
  · show (writeBackToHistory hist _)[i]? = _
    unfold writeBackToHistory
    have hid : ({ prev with preferences := mergePrefs prev.preferences uP } : Carousel).id
        = prev.id := rfl
    rw [hid, hfind]
    exact List.getElem?_set_self hlt

/-- Witness for `update_mutators_sync_history` on a concrete two-entry
history whose second entry matches the current carousel. -/
theorem update_mutators_sync_history_witness :
    ([carouselB, carouselA].findIdx? (fun e => e.id == carouselA.id) = some 1) ∧
    (((handleUpdateSlideState (some carouselA) [carouselB, carouselA] "s1"
        { headline := some "New" }).2)[1]?
        = some (updateSlideInCarousel carouselA "s1" { headline := some "New" }) ∧
     ((handleUpdatePrefsState (some carouselA) [carouselB, carouselA]
        { fontColor := some "#000000" } "Coffee Brewing" ["Food"] "u1" "t1").2)[1]?
        = some { carouselA with
                 preferences := mergePrefs carouselA.preferences { fontColor := some "#000000" } } ∧
     (handleMoveSlideState (some carouselA) [carouselB, carouselA] "s1" MoveDir.right).2
        = [carouselB, carouselA] ∧
     (handleClearSlideOverridesState (some carouselA) [carouselB, carouselA]
        SlideOverrideField.backgroundColor).2 = [carouselB, carouselA]) :=
  ⟨by decide,
   update_mutators_sync_history carouselA [carouselB, carouselA] 1 "s1"
     { headline := some "New" } { fontColor := some "#000000" } "Coffee Brewing" ["Food"]
     "u1" "t1" MoveDir.right SlideOverrideField.backgroundColor (by decide)⟩

/-! ### C4: frame effect of `handleUpdateSlide` on history -/

/-- C4: updating a slide of the current carousel replaces the history
entry found for the carousel id with the updated carousel, and leaves
every history entry whose id differs from the current carousel id
byte-for-byte unchanged (its position keeps the very same value). -/
theorem handleUpdateSlide_frame
    (prev : Carousel) (hist : List Carousel) (sid : String) (u : SlideUpdate)
    (i j : Nat)
    (hfind : hist.findIdx? (fun e => e.id == prev.id) = some i)
    (hj : hist[j]?.map Carousel.id ≠ some prev.id) :
    ((handleUpdateSlideState (some prev) hist sid u).2)[i]?
        = some (updateSlideInCarousel prev sid u) ∧
    ((handleUpdateSlideState (some prev) hist sid u).2)[j]? = hist[j]? := by
  obtain ⟨hlt, e, he, hpe⟩ := findIdx?_spec hfind
  have hne : j ≠ i := by
    intro h
    subst h
    rw [he] at hj
    simp at hpe
    simp [hpe] at hj
  constructor
  · show (writeBackToHistory hist (updateSlideInCarousel prev sid u))[i]? = _
    unfold writeBackToHistory
    have hid : (updateSlideInCarousel prev sid u).id = prev.id := rfl
    rw [hid, hfind]
    exact List.getElem?_set_self hlt
  · show (writeBackToHistory hist (updateSlideInCarousel prev sid u))[j]? = _
    unfold writeBackToHistory
    have hid : (updateSlideInCarousel prev sid u).id = prev.id := rfl
    rw [hid, hfind]
    exact List.getElem?_set_ne (fun h => hne h.symm)

/-- Witness for `handleUpdateSlide_frame`: entry 1 matches the current
carousel and is replaced; entry 0 has a different id and is unchanged. -/
theorem handleUpdateSlide_frame_witness :
    ([carouselB, carouselA].findIdx? (fun e => e.id == carouselA.id) = some 1) ∧
    (([carouselB, carouselA] : List Carousel)[0]?.map Carousel.id ≠ some carouselA.id) ∧
    (((handleUpdateSlideState (some carouselA) [carouselB, carouselA] "s1"
        { headline := some "H2" }).2)[1]?
        = some (updateSlideInCarousel carouselA "s1" { headline := some "H2" }) ∧
     ((handleUpdateSlideState (some carouselA) [carouselB, carouselA] "s1"
        { headline := some "H2" }).2)[0]?
        = ([carouselB, carouselA] : List Carousel)[0]?) :=
  ⟨by decide, by decide,
   handleUpdateSlide_frame carouselA [carouselB, carouselA] "s1" { headline := some "H2" } 1 0
     (by decide) (by decide)⟩

/-! ### C5: adjacent slide reorder -/

/-- C5: `handleMoveSlide` with an unknown slide id leaves the carousel
unchanged; with a known id whose adjacent target position is out of
bounds it leaves the carousel unchanged; and with an in-bounds target it
swaps exactly the found slide with its neighbour (the slide list equals
the original with only positions `i` and the target exchanged, so every
other slide keeps its data and its position). -/
theorem handleMoveSlide_spec (c : Carousel) (sid : String) (dir : MoveDir) (i : Nat)
    (a b : SlideData) :
    (c.slides.findIdx? (fun s => s.id == sid) = none → moveSlide c sid dir = c) ∧
    (c.slides.findIdx? (fun s => s.id == sid) = some i →
      ((if dir = MoveDir.left then (i : Int) - 1 else (i : Int) + 1) < 0 ∨
       (c.slides.length : Int) ≤ (if dir = MoveDir.left then (i : Int) - 1 else (i : Int) + 1)) →
      moveSlide c sid dir = c) ∧
    (c.slides.findIdx? (fun s => s.id == sid) = some i →
      ¬ ((if dir = MoveDir.left then (i : Int) - 1 else (i : Int) + 1) < 0 ∨
         (c.slides.length : Int) ≤ (if dir = MoveDir.left then (i : Int) - 1 else (i : Int) + 1)) →
      c.slides[i]? = some a →
      c.slides[(if dir = MoveDir.left then (i : Int) - 1 else (i : Int) + 1).toNat]? = some b →
      moveSlide c sid dir =
        { c with
          slides := (c.slides.set i b).set
            (if dir = MoveDir.left then (i : Int) - 1 else (i : Int) + 1).toNat a }) := by
  refine ⟨fun h1 => ?_, fun hf hoob => ?_, fun hf hoob ha hb => ?_⟩
  · simp [moveSlide, h1]
  · simp only [moveSlide, hf]
    rw [if_pos hoob]
  · simp only [moveSlide, hf]
    rw [if_neg hoob]
    rw [ha, hb]

/-- Witness for `handleMoveSlide_spec`: in a two-slide carousel, moving
the first slide right swaps the two slides. -/
theorem handleMoveSlide_spec_witness :
    (carouselA.slides.findIdx? (fun s => s.id == "s1") = some 0) ∧
    (¬ ((if MoveDir.right = MoveDir.left then ((0 : Nat) : Int) - 1 else ((0 : Nat) : Int) + 1) < 0 ∨
        (carouselA.slides.length : Int)
          ≤ (if MoveDir.right = MoveDir.left then ((0 : Nat) : Int) - 1 else ((0 : Nat) : Int) + 1))) ∧
    (carouselA.slides[(0 : Nat)]? = some slideA) ∧
    (carouselA.slides[(if MoveDir.right = MoveDir.left then ((0 : Nat) : Int) - 1
        else ((0 : Nat) : Int) + 1).toNat]? = some slideB) ∧
    moveSlide carouselA "s1" MoveDir.right =
      { carouselA with
        slides := (carouselA.slides.set 0 slideB).set
          (if MoveDir.right = MoveDir.left then ((0 : Nat) : Int) - 1
            else ((0 : Nat) : Int) + 1).toNat slideA } :=
  ⟨by decide, by decide, by decide, by decide,
   (handleMoveSlide_spec carouselA "s1" MoveDir.right 0 slideA slideB).2.2
     (by decide) (by decide) (by decide) (by decide)⟩

/-! ### C6: partial preferences update -/

/-- An `Option` that is not `none` survives `getD` unchanged. -/
theorem some_getD_of_ne_none {α : Type _} {o : Option α} (h : o ≠ none) (d : α) :
    some (o.getD d) = o := by
  cases o with
  | none => exact absurd rfl h
  | some v => rfl

/-- C6: applying a partial preferences update to the current carousel
yields a preferences record in which, for every one of the twelve
`DesignPreferences` fields, a field named in the update carries the
updated value and a field not named in the update keeps its previous
value. -/
theorem handleUpdatePrefs_partial_merge
    (prev : Carousel) (hist : List Carousel) (u : PrefsUpdate)
    (topic : String) (un : List String) (fid now : String) :
    (u.backgroundColor = none → ((handleUpdatePrefsState (some prev) hist u topic un fid now).1).map (fun c => c.preferences.backgroundColor) = some prev.preferences.backgroundColor) ∧
    (u.backgroundColor ≠ none → ((handleUpdatePrefsState (some prev) hist u topic un fid now).1).map (fun c => c.preferences.backgroundColor) = u.backgroundColor) ∧
    (u.fontColor = none → ((handleUpdatePrefsState (some prev) hist u topic un fid now).1).map (fun c => c.preferences.fontColor) = some prev.preferences.fontColor) ∧
    (u.fontColor ≠ none → ((handleUpdatePrefsState (some prev) hist u topic un fid now).1).map (fun c => c.preferences.fontColor) = u.fontColor) ∧
    (u.backgroundOpacity = none → ((handleUpdatePrefsState (some prev) hist u topic un fid now).1).map (fun c => c.preferences.backgroundOpacity) = some prev.preferences.backgroundOpacity) ∧
    (u.backgroundOpacity ≠ none → ((handleUpdatePrefsState (some prev) hist u topic un fid now).1).map (fun c => c.preferences.backgroundOpacity) = u.backgroundOpacity) ∧
    (u.style = none → ((handleUpdatePrefsState (some prev) hist u topic un fid now).1).map (fun c => c.preferences.style) = some prev.preferences.style) ∧
    (u.style ≠ none → ((handleUpdatePrefsState (some prev) hist u topic un fid now).1).map (fun c => c.preferences.style) = u.style) ∧
    (u.font = none → ((handleUpdatePrefsState (some prev) hist u topic un fid now).1).map (fun c => c.preferences.font) = some prev.preferences.font) ∧
    (u.font ≠ none → ((handleUpdatePrefsState (some prev) hist u topic un fid now).1).map (fun c => c.preferences.font) = u.font) ∧
    (u.aspectRatio = none → ((handleUpdatePrefsState (some prev) hist u topic un fid now).1).map (fun c => c.preferences.aspectRatio) = some prev.preferences.aspectRatio) ∧
    (u.aspectRatio ≠ none → ((handleUpdatePrefsState (some prev) hist u topic un fid now).1).map (fun c => c.preferences.aspectRatio) = u.aspectRatio) ∧
    (u.backgroundImage = none → ((handleUpdatePrefsState (some prev) hist u topic un fid now).1).map (fun c => c.preferences.backgroundImage) = some prev.preferences.backgroundImage) ∧
    (u.backgroundImage ≠ none → ((handleUpdatePrefsState (some prev) hist u topic un fid now).1).map (fun c => c.preferences.backgroundImage) = u.backgroundImage) ∧
    (u.brandingText = none → ((handleUpdatePrefsState (some prev) hist u topic un fid now).1).map (fun c => c.preferences.brandingText) = some prev.preferences.brandingText) ∧
    (u.brandingText ≠ none → ((handleUpdatePrefsState (some prev) hist u topic un fid now).1).map (fun c => c.preferences.brandingText) = u.brandingText) ∧
    (u.brandingStyle = none → ((handleUpdatePrefsState (some prev) hist u topic un fid now).1).map (fun c => c.preferences.brandingStyle) = some prev.preferences.brandingStyle) ∧
    (u.brandingStyle ≠ none → ((handleUpdatePrefsState (some prev) hist u topic un fid now).1).map (fun c => c.preferences.brandingStyle) = u.brandingStyle) ∧
    (u.headlineStyle = none → ((handleUpdatePrefsState (some prev) hist u topic un fid now).1).map (fun c => c.preferences.headlineStyle) = some prev.preferences.headlineStyle) ∧
    (u.headlineStyle ≠ none → ((handleUpdatePrefsState (some prev) hist u topic un fid now).1).map (fun c => c.preferences.headlineStyle) = u.headlineStyle) ∧
    (u.bodyStyle = none → ((handleUpdatePrefsState (some prev) hist u topic un fid now).1).map (fun c => c.preferences.bodyStyle) = some prev.preferences.bodyStyle) ∧
    (u.bodyStyle ≠ none → ((handleUpdatePrefsState (some prev) hist u topic un fid now).1).map (fun c => c.preferences.bodyStyle) = u.bodyStyle) ∧
    (u.slideNumberStyle = none → ((handleUpdatePrefsState (some prev) hist u topic un fid now).1).map (fun c => c.preferences.slideNumberStyle) = some prev.preferences.slideNumberStyle) ∧
    (u.slideNumberStyle ≠ none → ((handleUpdatePrefsState (some prev) hist u topic un fid now).1).map (fun c => c.preferences.slideNumberStyle) = u.slideNumberStyle) :=
  ⟨
   fun h => by simp [handleUpdatePrefsState, mergePrefs, h],
   fun h => by simp only [handleUpdatePrefsState, mergePrefs, Option.map]; exact some_getD_of_ne_none h _,
   fun h => by simp [handleUpdatePrefsState, mergePrefs, h],
   fun h => by simp only [handleUpdatePrefsState, mergePrefs, Option.map]; exact some_getD_of_ne_none h _,
   fun h => by simp [handleUpdatePrefsState, mergePrefs, h],
   fun h => by simp only [handleUpdatePrefsState, mergePrefs, Option.map]; exact some_getD_of_ne_none h _,
   fun h => by simp [handleUpdatePrefsState, mergePrefs, h],
   fun h => by simp only [handleUpdatePrefsState, mergePrefs, Option.map]; exact some_getD_of_ne_none h _,
   fun h => by simp [handleUpdatePrefsState, mergePrefs, h],
   fun h => by simp only [handleUpdatePrefsState, mergePrefs, Option.map]; exact some_getD_of_ne_none h _,
   fun h => by simp [handleUpdatePrefsState, mergePrefs, h],
   fun h => by simp only [handleUpdatePrefsState, mergePrefs, Option.map]; exact some_getD_of_ne_none h _,
   fun h => by simp [handleUpdatePrefsState, mergePrefs, h],
   fun h => by simp only [handleUpdatePrefsState, mergePrefs, Option.map]; exact some_getD_of_ne_none h _,
   fun h => by simp [handleUpdatePrefsState, mergePrefs, h],
   fun h => by simp only [handleUpdatePrefsState, mergePrefs, Option.map]; exact some_getD_of_ne_none h _,
   fun h => by simp [handleUpdatePrefsState, mergePrefs, h],
   fun h => by simp only [handleUpdatePrefsState, mergePrefs, Option.map]; exact some_getD_of_ne_none h _,
   fun h => by simp [handleUpdatePrefsState, mergePrefs, h],
   fun h => by simp only [handleUpdatePrefsState, mergePrefs, Option.map]; exact some_getD_of_ne_none h _,
   fun h => by simp [handleUpdatePrefsState, mergePrefs, h],
   fun h => by simp only [handleUpdatePrefsState, mergePrefs, Option.map]; exact some_getD_of_ne_none h _,
   fun h => by simp [handleUpdatePrefsState, mergePrefs, h],
   fun h => by simp only [handleUpdatePrefsState, mergePrefs, Option.map]; exact some_getD_of_ne_none h _⟩

/-- Witness for `handleUpdatePrefs_partial_merge`: an update naming only
`fontColor` sets it and preserves `backgroundColor`. -/
theorem handleUpdatePrefs_partial_merge_witness :
    ((({ fontColor := some "#123456" } : PrefsUpdate).fontColor ≠ none) ∧
     ((handleUpdatePrefsState (some carouselA) ([] : List Carousel) { fontColor := some "#123456" }
        "Coffee Brewing" ["Food"] "u1" "t1").1).map (fun c => c.preferences.fontColor)
       = ({ fontColor := some "#123456" } : PrefsUpdate).fontColor) ∧
    ((({ fontColor := some "#123456" } : PrefsUpdate).backgroundColor = none) ∧
     ((handleUpdatePrefsState (some carouselA) ([] : List Carousel) { fontColor := some "#123456" }
        "Coffee Brewing" ["Food"] "u1" "t1").1).map (fun c => c.preferences.backgroundColor)
       = some carouselA.preferences.backgroundColor) :=
  ⟨⟨by decide,
    (handleUpdatePrefs_partial_merge carouselA [] { fontColor := some "#123456" }
      "Coffee Brewing" ["Food"] "u1" "t1").2.2.2.1 (by decide)⟩,
   ⟨by decide,
    (handleUpdatePrefs_partial_merge carouselA [] { fontColor := some "#123456" }
      "Coffee Brewing" ["Food"] "u1" "t1").1 (by decide)⟩⟩

/-! ### C7: the error classifier end to end -/

/-- The structured quota error message of the specification scenario. -/
def jsonQuotaInput : String := "\x7b\"error\":\x7b\"code\":429,\"status\":\"RESOURCE_EXHAUSTED\"\x7d\x7d"

/-- C7: the classifier maps the JSON message
`\x7b"error":\x7b"code":429,"status":"RESOURCE_EXHAUSTED"\x7d\x7d` to the
quota-exceeded user message (with the default rate-limit link), maps the
plain string `API key not valid` to the invalid-credential user message,
and returns any unrecognized nonempty plain string (one that does not
look like a JSON object and contains none of the recognized substrings)
unchanged. -/
theorem parseAndDisplayError_spec (s : String)
    (hne : s ≠ "")
    (hnj : strStartsWith s "\x7b" = false)
    (h1 : strContainsSub (strToLower s) "api key not valid" = false)
    (h2 : strContainsSub (strToLower s) "permission denied" = false)
    (h3 : strContainsSub (strToLower s) "api key is not configured" = false)
    (h4 : strContainsSub s "AI did not return an image from your prompt." = false) :
    parseAndDisplayError jsonQuotaInput
      = tFormat "errorQuotaExceeded" [("link", "https://ai.google.dev/gemini-api/docs/rate-limits")] ∧
    parseAndDisplayError "API key not valid" = translationsLookup "errorInvalidApiKey" ∧
    parseAndDisplayError s = s := by
  refine ⟨by decide, by decide, ?_⟩
  simp [parseAndDisplayError, jsOr, hne, hnj, h1, h2, h3, h4]

/-- Witness for `parseAndDisplayError_spec` with the unrecognized plain
string instantiated concretely. -/
theorem parseAndDisplayError_spec_witness :
    (("Something odd happened" : String) ≠ "") ∧
    (strStartsWith "Something odd happened" "\x7b" = false ∧
     strContainsSub (strToLower "Something odd happened") "api key not valid" = false ∧
     strContainsSub (strToLower "Something odd happened") "permission denied" = false ∧
     strContainsSub (strToLower "Something odd happened") "api key is not configured" = false ∧
     strContainsSub "Something odd happened" "AI did not return an image from your prompt." = false) ∧
    (parseAndDisplayError jsonQuotaInput
      = tFormat "errorQuotaExceeded" [("link", "https://ai.google.dev/gemini-api/docs/rate-limits")] ∧
     parseAndDisplayError "API key not valid" = translationsLookup "errorInvalidApiKey" ∧
     parseAndDisplayError "Something odd happened" = "Something odd happened") :=
  ⟨by decide, ⟨by decide, by decide, by decide, by decide, by decide⟩,
   parseAndDisplayError_spec "Something odd happened" (by decide) (by decide) (by decide)
     (by decide) (by decide) (by decide)⟩

/-! ### C8: the generation success path -/

/-- The per-slide image pass preserves the carousel id, the title and
the number of slides, whatever the image outcomes are. -/
theorem imageFold_preserves_shape (images : Nat → Option String) :
    ∀ (l : List (Nat × SlideData)) (acc : Carousel),
      ((l.foldl (fun acc p =>
          match images p.1 with
          | some url =>
            { acc with
              slides := acc.slides.map
                (fun s => if s.id == p.2.id then { s with backgroundImage := some url } else s) }
          | none => acc) acc)).id = acc.id ∧
      ((l.foldl (fun acc p =>
          match images p.1 with
          | some url =>
            { acc with
              slides := acc.slides.map
                (fun s => if s.id == p.2.id then { s with backgroundImage := some url } else s) }
          | none => acc) acc)).title = acc.title ∧
      ((l.foldl (fun acc p =>
          match images p.1 with
          | some url =>
            { acc with
              slides := acc.slides.map
                (fun s => if s.id == p.2.id then { s with backgroundImage := some url } else s) }
          | none => acc) acc)).slides.length = acc.slides.length := by
  intro l
  induction l with
  | nil => intro acc; exact ⟨rfl, rfl, rfl⟩
  | cons p ps ih =>
    intro acc
    cases himg : images p.1 with
    | none =>
      simp only [List.foldl_cons, himg]
      exact ih acc
    | some url =>
      simp only [List.foldl_cons, himg]
      obtain ⟨h1, h2, h3⟩ := ih
        { acc with
          slides := acc.slides.map
            (fun s => if s.id == p.2.id then { s with backgroundImage := some url } else s) }
      exact ⟨h1, h2, h3.trans (List.length_map _ _)⟩

/-- C8: when content generation succeeds with a nonempty slide list and
a fresh carousel id, the generated carousel has the topic as its title,
the fresh id, at least one slide, and it is prepended to the history, so
the first history entry is the new carousel and the fresh id occurs in
the new history exactly once.  The nonemptiness of the generated content
and the freshness of `crypto.randomUUID()` come from the spec of the
external collaborators and enter as hypotheses. -/
theorem handleGenerateCarousel_spec
    (topic niche : String) (userNiche : List String) (preferences : DesignPreferences)
    (magicCreate : Bool) (content : List SlideContent) (slideIds : List String)
    (newId nowIso : String) (images : Nat → Option String) (hist : List Carousel)
    (hcontent : content ≠ []) (hids : slideIds.length = content.length)
    (hfresh : ∀ c ∈ hist, c.id ≠ newId) :
    (handleGenerateCarousel topic niche userNiche preferences magicCreate content slideIds
        newId nowIso images hist).1.title = topic ∧
    (handleGenerateCarousel topic niche userNiche preferences magicCreate content slideIds
        newId nowIso images hist).1.id = newId ∧
    0 < (handleGenerateCarousel topic niche userNiche preferences magicCreate content slideIds
        newId nowIso images hist).1.slides.length ∧
    (handleGenerateCarousel topic niche userNiche preferences magicCreate content slideIds
        newId nowIso images hist).2
      = (handleGenerateCarousel topic niche userNiche preferences magicCreate content slideIds
          newId nowIso images hist).1 :: hist ∧
    ((handleGenerateCarousel topic niche userNiche preferences magicCreate content slideIds
        newId nowIso images hist).2).countP (fun c => c.id == newId) = 1 := by
  have hlen : ((content.zip slideIds).map (fun p =>
      ({ id := p.2, headline := p.1.headline, body := p.1.body
         visual_prompt := p.1.visual_prompt
         backgroundImage := none, backgroundColor := none, fontColor := none } : SlideData))).length
      = content.length := by
    rw [List.length_map, List.length_zip, hids, min_self]
  have hpos : 0 < content.length := List.length_pos.mpr hcontent
  have hcount : hist.countP (fun c => c.id == newId) = 0 := by
    rw [List.countP_eq_zero]
    intro c hc
    simpa using hfresh c hc
  cases magicCreate with
  | false =>
    refine ⟨rfl, rfl, ?_, rfl, ?_⟩
    · simp only [handleGenerateCarousel, Bool.false_eq_true, if_false]
      rw [hlen]
      exact hpos
    · simp only [handleGenerateCarousel, Bool.false_eq_true, if_false, List.countP_cons]
      simp [hcount]
  | true =>
    obtain ⟨h1, h2, h3⟩ := imageFold_preserves_shape images
      (((content.zip slideIds).map (fun p =>
        ({ id := p.2, headline := p.1.headline, body := p.1.body
           visual_prompt := p.1.visual_prompt
           backgroundImage := none, backgroundColor := none, fontColor := none } : SlideData))).enum)
      { id := newId, title := topic, createdAt := nowIso
        slides := (content.zip slideIds).map (fun p =>
          ({ id := p.2, headline := p.1.headline, body := p.1.body
             visual_prompt := p.1.visual_prompt
             backgroundImage := none, backgroundColor := none, fontColor := none } : SlideData))
        category := jsOr niche (if 0 < userNiche.length then userNiche.headD "" else "General")
        preferences := preferences }
    refine ⟨?_, ?_, ?_, rfl, ?_⟩
    · exact h2
    · exact h1
    · simp only [handleGenerateCarousel, if_true, executeImageGenerationForAllSlides]
      rw [h3, hlen]
      exact hpos
    · simp only [handleGenerateCarousel, if_true, List.countP_cons, executeImageGenerationForAllSlides]
      rw [hcount, h1]
      simp

/-- Witness for `handleGenerateCarousel_spec` on the Coffee Brewing
scenario of the specification. -/
theorem handleGenerateCarousel_spec_witness :
    (([⟨"H", "B", "V"⟩] : List SlideContent) ≠ []) ∧
    ((["sid1"] : List String).length = ([⟨"H", "B", "V"⟩] : List SlideContent).length) ∧
    (∀ c ∈ [carouselA], c.id ≠ "new-1") ∧
    ((handleGenerateCarousel "Coffee Brewing" "Food" ["Food"] placeholderBasePrefs false
        [⟨"H", "B", "V"⟩] ["sid1"] "new-1" "t0" (fun _ => none) [carouselA]).1.title = "Coffee Brewing" ∧
     (handleGenerateCarousel "Coffee Brewing" "Food" ["Food"] placeholderBasePrefs false
        [⟨"H", "B", "V"⟩] ["sid1"] "new-1" "t0" (fun _ => none) [carouselA]).1.id = "new-1" ∧
     0 < (handleGenerateCarousel "Coffee Brewing" "Food" ["Food"] placeholderBasePrefs false
        [⟨"H", "B", "V"⟩] ["sid1"] "new-1" "t0" (fun _ => none) [carouselA]).1.slides.length ∧
     (handleGenerateCarousel "Coffee Brewing" "Food" ["Food"] placeholderBasePrefs false
        [⟨"H", "B", "V"⟩] ["sid1"] "new-1" "t0" (fun _ => none) [carouselA]).2
       = (handleGenerateCarousel "Coffee Brewing" "Food" ["Food"] placeholderBasePrefs false
           [⟨"H", "B", "V"⟩] ["sid1"] "new-1" "t0" (fun _ => none) [carouselA]).1 :: [carouselA] ∧
     ((handleGenerateCarousel "Coffee Brewing" "Food" ["Food"] placeholderBasePrefs false
        [⟨"H", "B", "V"⟩] ["sid1"] "new-1" "t0" (fun _ => none) [carouselA]).2).countP
          (fun c => c.id == "new-1") = 1) :=
  ⟨by decide, by decide, by decide,
   handleGenerateCarousel_spec "Coffee Brewing" "Food" ["Food"] placeholderBasePrefs false
     [⟨"H", "B", "V"⟩] ["sid1"] "new-1" "t0" (fun _ => none) [carouselA]
     (by decide) (by decide) (by decide)⟩

/-! ### C9: leaving the generator view -/

/-- A transient placeholder-style carousel whose id has no entry in the
history list. -/
def tempCarousel : Carousel := { carouselA with id := "temp-xyz" }

/-- C9 counterexample: navigating from `GENERATOR` to the dashboard with
a current carousel whose id has no history entry completes the
transition but drops the carousel — afterwards the history does not
contain it, refuting the claim that the in-progress carousel is always
flushed into history. -/
theorem goToDashboard_unsaved_counterexample :
    (goToDashboard AppView.GENERATOR (some tempCarousel) []).1 = AppView.DASHBOARD ∧
    (goToDashboard AppView.GENERATOR (some tempCarousel) []).2.1 = none ∧
    (goToDashboard AppView.GENERATOR (some tempCarousel) []).2.2 = [] ∧
    tempCarousel ∉ (goToDashboard AppView.GENERATOR (some tempCarousel) []).2.2 := by
  refine ⟨rfl, rfl, rfl, ?_⟩
  simp [goToDashboard, writeBackToHistory]

/-- C9 as amended: navigating to the dashboard from a view other than
`LOGIN` or `PROFILE_SETUP` flushes the current carousel into history
only when an entry with its id already exists: that entry is replaced by
the latest carousel value, the current carousel is cleared and the view
becomes `DASHBOARD`.  A current carousel with no matching entry is not
added (see the counterexample). -/
theorem goToDashboard_flushes_existing_entry
    (view : AppView) (cur : Carousel) (hist : List Carousel) (i : Nat)
    (hv1 : view ≠ AppView.LOGIN) (hv2 : view ≠ AppView.PROFILE_SETUP)
    (hfind : hist.findIdx? (fun e => e.id == cur.id) = some i) :
    (goToDashboard view (some cur) hist).1 = AppView.DASHBOARD ∧
    (goToDashboard view (some cur) hist).2.1 = none ∧
    ((goToDashboard view (some cur) hist).2.2)[i]? = some cur := by
  have hlt := (findIdx?_spec hfind).1
  have hcond : ¬ (view = AppView.LOGIN ∨ view = AppView.PROFILE_SETUP) := by
    rintro (h | h)
    · exact hv1 h
    · exact hv2 h
  refine ⟨?_, ?_, ?_⟩
  · simp only [goToDashboard, if_neg hcond]
  · simp only [goToDashboard, if_neg hcond]
  · simp only [goToDashboard, if_neg hcond]
    show (writeBackToHistory hist cur)[i]? = some cur
    unfold writeBackToHistory
    rw [hfind]
    exact List.getElem?_set_self hlt

/-- Witness for `goToDashboard_flushes_existing_entry` on a history
containing the current carousel. -/
theorem goToDashboard_flushes_existing_entry_witness :
    (AppView.GENERATOR ≠ AppView.LOGIN) ∧
    (AppView.GENERATOR ≠ AppView.PROFILE_SETUP) ∧
    ([carouselA].findIdx? (fun e => e.id == carouselA.id) = some 0) ∧
    ((goToDashboard AppView.GENERATOR (some carouselA) [carouselA]).1 = AppView.DASHBOARD ∧
     (goToDashboard AppView.GENERATOR (some carouselA) [carouselA]).2.1 = none ∧
     ((goToDashboard AppView.GENERATOR (some carouselA) [carouselA]).2.2)[0]? = some carouselA) :=
  ⟨by decide, by decide, by decide,
   goToDashboard_flushes_existing_entry AppView.GENERATOR carouselA [carouselA] 0
     (by decide) (by decide) (by decide)⟩
